import Mathlib

/-!
Verification development for the pint-glass unit-conversion core.

The Python modules `pint_glass/dimensions.py`, `pint_glass/context.py`,
`pint_glass/core.py`, `pint_glass/exceptions.py` and `pint_glass/fields.py`
are shallowly embedded below:

* Python strings are Lean `String`s; the ASCII fragments of `str.lower`,
  `str.upper`, `str.title` and single-character `str.replace` are modelled
  character-wise (`pyLower`, `pyUpper`, `pyTitle`, `pyReplaceChar`).
* floats are modelled as exact rationals `ℚ`.
* raising an exception is modelled by `Except`; the exception taxonomy of
  `exceptions.py` becomes the inductive `PGError`.
* a `ContextVar` is modelled by the per-call-chain value it holds
  (`Option` of the payload: `none` means "not set in this context, fall
  back to the `ContextVar`'s default"); `ContextVar.set` returns a token
  holding the previous per-chain value and `ContextVar.reset` restores it.
  Because the default of `_request_cache` is one shared mutable `dict`,
  mutable dicts live in an explicit heap (`World`, a list of caches) and a
  chain's `_request_cache` value is a reference into that heap
  (`CacheCtx`); index 0 is the shared default dict.
* the third-party `pint` registry is opaque to this repository; it is
  modelled by an affine interpretation of exactly the unit strings that
  occur in the dimension registry (`Pint.UNIT_TABLE`), using pint's own
  definitional constants (inch = 0.0254 m, pound = 0.45359237 kg, standard
  gravity = 9.80665 m/s², degF → K affine, …).
-/

namespace PintGlass

/-- ASCII fragment of Python `str.lower` on one character. -/
def pyCharLower (c : Char) : Char :=
  if 65 ≤ c.toNat ∧ c.toNat ≤ 90 then Char.ofNat (c.toNat + 32) else c

/-- ASCII fragment of Python `str.upper` on one character. -/
def pyCharUpper (c : Char) : Char :=
  if 97 ≤ c.toNat ∧ c.toNat ≤ 122 then Char.ofNat (c.toNat - 32) else c

/-- Python `s.lower()` (ASCII fragment). -/
def pyLower (s : String) : String := ⟨s.data.map pyCharLower⟩

/-- Python `s.upper()` (ASCII fragment). -/
def pyUpper (s : String) : String := ⟨s.data.map pyCharUpper⟩

/-- Python `s.replace(pat, rep)` for a one-character pattern: each
occurrence of the character `pat` becomes `rep`. -/
def pyReplaceChar (pat rep : Char) (s : String) : String :=
  ⟨s.data.map (fun x => if x = pat then rep else x)⟩

/-- Whether a character is an ASCII letter (the cased characters that
matter for Python `str.title` on the registry's keys). -/
def pyCharIsAlpha (c : Char) : Bool :=
  (65 ≤ c.toNat ∧ c.toNat ≤ 90) ∨ (97 ≤ c.toNat ∧ c.toNat ≤ 122)

/-- Helper for `pyTitle`: the Bool records whether the previous character
was a letter. -/
def pyTitleAux : Bool → List Char → List Char
  | _, [] => []
  | prevAlpha, c :: rest =>
    (if pyCharIsAlpha c then (if prevAlpha then pyCharLower c else pyCharUpper c) else c)
      :: pyTitleAux (pyCharIsAlpha c) rest

/-- Python `s.title()` (ASCII fragment): the first letter of every
letter-run is upper-cased, the following letters lower-cased. -/
def pyTitle (s : String) : String := ⟨pyTitleAux false s.data⟩

/-- Association-list lookup, the model of Python `dict` lookup (`d[k]`,
`k in d`) for dicts built from literal entries. -/
def assocFind {κ α : Type} [DecidableEq κ] : List (κ × α) → κ → Option α
  | [], _ => none
  | (k, v) :: rest, key => if key = k then some v else assocFind rest key

/-- `exceptions.py`: `PintGlassError` and its three concrete shapes.
`unsupportedDimension` and `unitConversion` carry the formatted message the
source passes to the exception constructor; `keyError` models a plain
`KeyError` escaping a raw dict subscript (dead code in `core.py`, kept for
faithfulness of `dim_units[system_lower]`). -/
inductive PGError where
  | unsupportedDimension (msg : String)
  | unitConversion (msg : String)
  | keyError (key : String)
deriving DecidableEq

/-- `str(e)`: the message an exception carries. -/
def PGError.message : PGError → String
  | .unsupportedDimension msg => msg
  | .unitConversion msg => msg
  | .keyError key => key

namespace Dimensions

/-- `dimensions.py`: the `UnitMapping` TypedDict — every dimension entry
defines a unit string for each of these six systems. -/
structure UnitMapping where
  imperial : String
  si : String
  cgs : String
  us : String
  engg_si : String
  engg_field : String
deriving DecidableEq

/-- `dim_units[key]` / `key in dim_units` on a `UnitMapping` (the TypedDict
behaves as a dict with exactly its six declared keys). -/
def UnitMapping.find (m : UnitMapping) (key : String) : Option String :=
  if key = "imperial" then some m.imperial
  else if key = "si" then some m.si
  else if key = "cgs" then some m.cgs
  else if key = "us" then some m.us
  else if key = "engg_si" then some m.engg_si
  else if key = "engg_field" then some m.engg_field
  else none

/-- `dimensions.py`: `UNIT_SYSTEMS`, the system keys derived from the
`UnitMapping` TypedDict shape. -/
def UNIT_SYSTEMS : List String :=
  ["imperial", "si", "cgs", "us", "engg_si", "engg_field"]

/-- `dimensions.py`: `DEFAULT_SYSTEM` (the registry-lookup fallback). -/
def DEFAULT_SYSTEM : String := "engg_si"

/-- `dimensions.py`: `BASE_SYSTEM` (internal storage system). -/
def BASE_SYSTEM : String := "si"

/-- `dimensions.py`: `_TARGET_DIMENSIONS_RAW`, which `core.py` imports as
its `TARGET_DIMENSIONS`. -/
def TARGET_DIMENSIONS_RAW : List (String × UnitMapping) :=
  [("pressure", ⟨"psi", "pascal", "barye", "psi", "bar", "psi"⟩),
   ("length", ⟨"foot", "meter", "centimeter", "foot", "meter", "foot"⟩),
   ("temperature", ⟨"degF", "kelvin", "degC", "degF", "degC", "degF"⟩),
   ("mass", ⟨"pound", "kilogram", "gram", "pound", "kilogram", "pound"⟩),
   ("time", ⟨"second", "second", "second", "second", "second", "second"⟩),
   ("current", ⟨"ampere", "ampere", "ampere", "ampere", "ampere", "ampere"⟩),
   ("luminosity", ⟨"candela", "candela", "candela", "candela", "candela", "candela"⟩),
   ("substance", ⟨"mole", "mole", "mole", "mole", "mole", "mole"⟩),
   ("area", ⟨"foot ** 2", "meter ** 2", "centimeter ** 2", "foot ** 2", "meter ** 2", "foot ** 2"⟩),
   ("volume", ⟨"foot ** 3", "meter ** 3", "centimeter ** 3", "foot ** 3", "meter ** 3", "foot ** 3"⟩),
   ("frequency", ⟨"hertz", "hertz", "hertz", "hertz", "hertz", "hertz"⟩),
   ("wavenumber", ⟨"1 / foot", "1 / meter", "1 / centimeter", "1 / foot", "1 / meter", "1 / foot"⟩),
   ("velocity", ⟨"foot / second", "meter / second", "centimeter / second", "foot / second", "meter / second", "foot / second"⟩),
   ("speed", ⟨"foot / second", "meter / second", "centimeter / second", "foot / second", "meter / second", "foot / second"⟩),
   ("mass_flow_rate", ⟨"pound / second", "kilogram / second", "gram / second", "pound / second", "kilogram / hour", "pound / hour"⟩),
   ("volumetric_flow_rate", ⟨"foot ** 3 / second", "meter ** 3 / second", "centimeter ** 3 / second", "foot ** 3 / second", "meter ** 3 / hour", "foot ** 3 / hour"⟩),
   ("acceleration", ⟨"foot / second ** 2", "meter / second ** 2", "centimeter / second ** 2", "foot / second ** 2", "meter / second ** 2", "foot / second ** 2"⟩),
   ("force", ⟨"pound_force", "newton", "dyne", "pound_force", "newton", "pound_force"⟩),
   ("energy", ⟨"foot_pound", "joule", "erg", "foot_pound", "joule", "foot_pound"⟩),
   ("power", ⟨"foot_pound / second", "watt", "erg / second", "foot_pound / second", "watt", "foot_pound / second"⟩),
   ("momentum", ⟨"pound * foot / second", "kilogram * meter / second", "gram * centimeter / second", "pound * foot / second", "kilogram * meter / second", "pound * foot / second"⟩),
   ("density", ⟨"pound / foot ** 3", "kilogram / meter ** 3", "gram / centimeter ** 3", "pound / foot ** 3", "kilogram / meter ** 3", "pound / foot ** 3"⟩),
   ("torque", ⟨"foot_pound", "newton * meter", "dyne * centimeter", "foot_pound", "newton * meter", "foot_pound"⟩),
   ("viscosity", ⟨"pound / (foot * second)", "pascal * second", "poise", "pound / (foot * second)", "pascal * second", "pound / (foot * second)"⟩),
   ("kinematic_viscosity", ⟨"square_foot / second", "meter ** 2 / second", "stokes", "square_foot / second", "meter ** 2 / second", "square_foot / second"⟩)]

/-- The registry's dimension keys, in table order. -/
def DIMENSION_KEYS : List String := TARGET_DIMENSIONS_RAW.map Prod.fst

/-- `get_pretty_dimensions` key derivation in `dimensions.py`:
`dim_key.replace("_", " ").title()`. -/
def prettyKey (dimKey : String) : String := pyTitle (pyReplaceChar '_' ' ' dimKey)

end Dimensions

namespace Pint

/-- Modelled from the spec: the opaque quantity-algebra service (`pint`).
A unit string denotes an affine map `v ↦ factor * v + offset` into the SI
coherent value of its physical dimension; converting between two units of
one dimension composes one map with the inverse of the other. -/
structure Affine where
  factor : ℚ
  offset : ℚ

/-- pint definitional constant: 1 inch = 0.0254 m. -/
def inch : ℚ := 254 / 10000

/-- pint definitional constant: 1 foot = 0.3048 m. -/
def foot : ℚ := 3048 / 10000

/-- pint definitional constant: 1 avoirdupois pound = 0.45359237 kg. -/
def pound : ℚ := 45359237 / 100000000

/-- pint definitional constant: standard gravity = 9.80665 m/s². -/
def g0 : ℚ := 980665 / 100000

/-- 1 pound-force in newtons. -/
def lbf : ℚ := pound * g0

/-- 1 foot-pound (energy) in joules. -/
def footPound : ℚ := lbf * foot

/-- 1 hour in seconds. -/
def hour : ℚ := 3600

/-- 1 centimeter in meters. -/
def cm : ℚ := 1 / 100

set_option maxHeartbeats 1000000 in
/-- Modelled from the spec: pint's interpretation of each unit string that
occurs in `_TARGET_DIMENSIONS_RAW`, as an affine map into SI coherent
units of the matching dimension. -/
def UNIT_TABLE : List (String × Affine) :=
  [("psi", ⟨lbf / (inch * inch), 0⟩),
   ("pascal", ⟨1, 0⟩),
   ("barye", ⟨1 / 10, 0⟩),
   ("bar", ⟨100000, 0⟩),
   ("foot", ⟨foot, 0⟩),
   ("meter", ⟨1, 0⟩),
   ("centimeter", ⟨cm, 0⟩),
   ("degF", ⟨5 / 9, 45967 / 180⟩),
   ("kelvin", ⟨1, 0⟩),
   ("degC", ⟨1, 27315 / 100⟩),
   ("pound", ⟨pound, 0⟩),
   ("kilogram", ⟨1, 0⟩),
   ("gram", ⟨1 / 1000, 0⟩),
   ("second", ⟨1, 0⟩),
   ("ampere", ⟨1, 0⟩),
   ("candela", ⟨1, 0⟩),
   ("mole", ⟨1, 0⟩),
   ("foot ** 2", ⟨foot ^ 2, 0⟩),
   ("meter ** 2", ⟨1, 0⟩),
   ("centimeter ** 2", ⟨cm ^ 2, 0⟩),
   ("foot ** 3", ⟨foot ^ 3, 0⟩),
   ("meter ** 3", ⟨1, 0⟩),
   ("centimeter ** 3", ⟨cm ^ 3, 0⟩),
   ("hertz", ⟨1, 0⟩),
   ("1 / foot", ⟨1 / foot, 0⟩),
   ("1 / meter", ⟨1, 0⟩),
   ("1 / centimeter", ⟨1 / cm, 0⟩),
   ("foot / second", ⟨foot, 0⟩),
   ("meter / second", ⟨1, 0⟩),
   ("centimeter / second", ⟨cm, 0⟩),
   ("pound / second", ⟨pound, 0⟩),
   ("kilogram / second", ⟨1, 0⟩),
   ("gram / second", ⟨1 / 1000, 0⟩),
   ("kilogram / hour", ⟨1 / hour, 0⟩),
   ("pound / hour", ⟨pound / hour, 0⟩),
   ("foot ** 3 / second", ⟨foot ^ 3, 0⟩),
   ("meter ** 3 / second", ⟨1, 0⟩),
   ("centimeter ** 3 / second", ⟨cm ^ 3, 0⟩),
   ("meter ** 3 / hour", ⟨1 / hour, 0⟩),
   ("foot ** 3 / hour", ⟨foot ^ 3 / hour, 0⟩),
   ("foot / second ** 2", ⟨foot, 0⟩),
   ("meter / second ** 2", ⟨1, 0⟩),
   ("centimeter / second ** 2", ⟨cm, 0⟩),
   ("pound_force", ⟨lbf, 0⟩),
   ("newton", ⟨1, 0⟩),
   ("dyne", ⟨1 / 100000, 0⟩),
   ("foot_pound", ⟨footPound, 0⟩),
   ("joule", ⟨1, 0⟩),
   ("erg", ⟨1 / 10000000, 0⟩),
   ("foot_pound / second", ⟨footPound, 0⟩),
   ("watt", ⟨1, 0⟩),
   ("erg / second", ⟨1 / 10000000, 0⟩),
   ("pound * foot / second", ⟨pound * foot, 0⟩),
   ("kilogram * meter / second", ⟨1, 0⟩),
   ("gram * centimeter / second", ⟨cm / 1000, 0⟩),
   ("pound / foot ** 3", ⟨pound / foot ^ 3, 0⟩),
   ("kilogram / meter ** 3", ⟨1, 0⟩),
   ("gram / centimeter ** 3", ⟨(1 / 1000) / cm ^ 3, 0⟩),
   ("newton * meter", ⟨1, 0⟩),
   ("dyne * centimeter", ⟨cm / 100000, 0⟩),
   ("pound / (foot * second)", ⟨pound / foot, 0⟩),
   ("pascal * second", ⟨1, 0⟩),
   ("poise", ⟨1 / 10, 0⟩),
   ("square_foot / second", ⟨foot ^ 2, 0⟩),
   ("meter ** 2 / second", ⟨1, 0⟩),
   ("stokes", ⟨1 / 10000, 0⟩)]

/-- The affine interpretation of a unit string, when the string is one the
registry can produce. -/
def interp (u : String) : Option Affine := assocFind UNIT_TABLE u

/-- `ureg.Quantity(v, src).to(dst).magnitude`: `none` models pint raising
`UndefinedUnitError`/`DimensionalityError`. -/
def convertValue (v : ℚ) (src dst : String) : Option ℚ :=
  match interp src, interp dst with
  | some a, some b => some ((a.factor * v + a.offset - b.offset) / b.factor)
  | _, _ => none

end Pint

namespace Context

/-- `context.py`: `SUPPORTED_SYSTEMS` (a hardcoded frozenset, independent
of `dimensions.UNIT_SYSTEMS`). -/
def SUPPORTED_SYSTEMS : List String := ["imperial", "si"]

/-- `context.py`: `DEFAULT_SYSTEM` (the scope-set fallback, distinct from
`dimensions.DEFAULT_SYSTEM`). -/
def DEFAULT_SYSTEM : String := "imperial"

/-- A call chain's view of the `unit_context` ContextVar: `none` means the
chain never set it (so `get` yields the ContextVar's default). -/
abbrev CtxState : Type := Option String

/-- `get_unit_system()` in a chain with `unit_context` state `st`. -/
def get_unit_system (st : CtxState) : String :=
  st.getD DEFAULT_SYSTEM

/-- The warning text of `set_unit_system` for an unrecognized key
(`sorted(SUPPORTED_SYSTEMS)` renders as `['imperial', 'si']`). -/
def unknownSystemWarning (system : String) : String :=
  "Unknown unit system '" ++ system ++ "' — falling back to '" ++ DEFAULT_SYSTEM ++
    "'. Supported systems: ['imperial', 'si']. Did you mean 'si'?"

/-- What one `set_unit_system` call produces: the `Token` (the previous
per-chain value of `unit_context`), the new per-chain state, and the
warnings it emitted. -/
structure SetOutcome where
  token : Option String
  state : CtxState
  warnings : List String

/-- `set_unit_system(system)` run in a chain whose `unit_context` state is
`st`. -/
def set_unit_system (st : CtxState) (system : String) : SetOutcome :=
  let system_lower := pyLower system
  ⟨st,
   some (if system_lower ∈ SUPPORTED_SYSTEMS then system_lower else DEFAULT_SYSTEM),
   if system_lower ∈ SUPPORTED_SYSTEMS then [] else [unknownSystemWarning system]⟩

/-- `reset_unit_system(token)` / `unit_context.reset(token)`: the chain's
state becomes the value saved in the token. -/
def reset_unit_system (token : Option String) : CtxState := token

/-- The `unit_context` states a call chain can reach through the scope
API: the initial (never-set) state, the state after any `set_unit_system`
call, and the state after `reset_unit_system` on a token — a token only
ever stores a state the chain previously held, so the restored state is a
previously reachable one. -/
inductive ReachableCtx : CtxState → Prop where
  | init : ReachableCtx none
  | step_set (st : CtxState) (s : String) (h : ReachableCtx st) :
      ReachableCtx (set_unit_system st s).state
  | step_reset (tok : Option String) (h : ReachableCtx tok) :
      ReachableCtx (reset_unit_system tok)

/-- A conversion-cache key: `(value, dimension, system, direction)`. -/
abbrev CacheKey : Type := ℚ × String × String × String

/-- One dict of `_request_cache` entries. -/
abbrev Cache : Type := List (CacheKey × ℚ)

/-- The heap of cache dicts: `_request_cache`'s default dict is index 0
(Python allocates it once — `default={}` — so every chain that never set
the var aliases that same dict). -/
abbrev World : Type := List Cache

/-- A call chain's view of the `_request_cache` ContextVar: `none` means
the chain never set it, so it references the shared default dict 0. -/
abbrev CacheCtx : Type := Option Nat

/-- The heap reference a chain's `_request_cache` resolves to. -/
def cacheRef (c : CacheCtx) : Nat := c.getD 0

/-- `get_request_cache()` in chain `c`: the dict its reference points to. -/
def get_request_cache (w : World) (c : CacheCtx) : Cache :=
  w.getD (cacheRef c) []

/-- `clear_request_cache()` in chain `c`: allocates a fresh empty dict,
points the chain's `_request_cache` at it, and returns (new world, new
chain state, token holding the previous chain state). -/
def clear_request_cache (w : World) (c : CacheCtx) :
    World × CacheCtx × Option Nat :=
  (w ++ [[]], some w.length, c)

/-- `set_request_cache(cache)` in chain `c`: allocates the given dict. -/
def set_request_cache (w : World) (c : CacheCtx) (cache : Cache) :
    World × CacheCtx × Option Nat :=
  (w ++ [cache], some w.length, c)

end Context

namespace Core

open Context Dimensions

/-- `core.py`'s dimension-key normalization:
`dimension.lower().replace(" ", "_")`. -/
def normalizeDim (dimension : String) : String :=
  pyReplaceChar ' ' '_' (pyLower dimension)

/-- The `", ".join(f"'{d}'" for d in TARGET_DIMENSIONS.keys())` part of the
unsupported-dimension message. -/
def supportedDimsMsg : String :=
  String.intercalate ", " (DIMENSION_KEYS.map (fun d => "'" ++ d ++ "'"))

/-- The message `get_preferred_unit` raises `UnsupportedDimensionError`
with. -/
def unsupportedMsg (dimension : String) : String :=
  "Unsupported dimension '" ++ dimension ++ "'; supported: " ++ supportedDimsMsg

/-- The message `convert_to_base`/`convert_from_base` raise
`UnitConversionError` with (the trailing pint text elided). -/
def conversionFailedMsg (dimension source_unit target_unit : String) : String :=
  "Conversion failed for dimension '" ++ dimension ++ "' from '" ++ source_unit ++
    "' to '" ++ target_unit ++ "'"

/-- `core.get_preferred_unit(dimension, system)`. -/
def get_preferred_unit (dimension system : String) : Except PGError String :=
  let dim_normalized := normalizeDim dimension
  match assocFind TARGET_DIMENSIONS_RAW dim_normalized with
  | none => .error (.unsupportedDimension (unsupportedMsg dimension))
  | some dim_units =>
    let system_lower := pyLower system
    let key := if (dim_units.find system_lower).isSome then system_lower
               else Dimensions.DEFAULT_SYSTEM
    match dim_units.find key with
    | some u => .ok u
    | none => .error (.keyError key)

/-- `core.get_base_unit(dimension)`. -/
def get_base_unit (dimension : String) : Except PGError String :=
  get_preferred_unit dimension BASE_SYSTEM

/-- `core.convert_to_base(value, dimension, system)` run in a chain whose
`_request_cache` state is `c` over heap `w`; the `.ok` payload is the
result and the heap after the in-place dict update. -/
def convert_to_base (w : World) (c : CacheCtx) (value : ℚ)
    (dimension system : String) : Except PGError (ℚ × World) :=
  let cache_key : CacheKey := (value, dimension, system, "to_base")
  let cache := get_request_cache w c
  match assocFind cache cache_key with
  | some cached => .ok (cached, w)
  | none =>
    match get_preferred_unit dimension system with
    | .error e => .error e
    | .ok source_unit =>
      match get_base_unit dimension with
      | .error e => .error e
      | .ok target_unit =>
        match Pint.convertValue value source_unit target_unit with
        | none => .error (.unitConversion
            (conversionFailedMsg dimension source_unit target_unit))
        | some result =>
            .ok (result, w.set (cacheRef c) ((cache_key, result) :: cache))

/-- `core.convert_from_base(value, dimension, system)`, symmetric to
`convert_to_base`: direction key `"from_base"`, source and target units
swapped. -/
def convert_from_base (w : World) (c : CacheCtx) (value : ℚ)
    (dimension system : String) : Except PGError (ℚ × World) :=
  let cache_key : CacheKey := (value, dimension, system, "from_base")
  let cache := get_request_cache w c
  match assocFind cache cache_key with
  | some cached => .ok (cached, w)
  | none =>
    match get_base_unit dimension with
    | .error e => .error e
    | .ok source_unit =>
      match get_preferred_unit dimension system with
      | .error e => .error e
      | .ok target_unit =>
        match Pint.convertValue value source_unit target_unit with
        | none => .error (.unitConversion
            (conversionFailedMsg dimension source_unit target_unit))
        | some result =>
            .ok (result, w.set (cacheRef c) ((cache_key, result) :: cache))

end Core

namespace Fields

open Context Core

/-- How a value leaves a field hook: accepted, or rejected. A rejection is
either the framework's own value-rejection error (`ValueError`) or a raw
engine error crossing the boundary (which `fields.py` must prevent). -/
inductive HookError where
  | valueError (msg : String)
  | engineError (e : PGError)

/-- `fields.py` `_create_input_type.validate_to_base` (the BeforeValidator
of an "Input" field), on an already-numeric value. -/
def validate_to_base (dimension : String) (st : CtxState) (w : World)
    (c : CacheCtx) (value : ℚ) : Except HookError (ℚ × World) :=
  let system := get_unit_system st
  match convert_to_base w c value dimension system with
  | .ok r => .ok r
  | .error e => .error (.valueError e.message)

/-- `fields.py` `_create_input_type.serialize_from_base` (the
PlainSerializer of an "Input" field). -/
def serialize_from_base (dimension : String) (st : CtxState) (w : World)
    (c : CacheCtx) (value : ℚ) : Except HookError (ℚ × World) :=
  let system := get_unit_system st
  match convert_from_base w c value dimension system with
  | .ok r => .ok r
  | .error e => .error (.valueError e.message)

/-- `fields.py` `_create_output_type.validate_passthrough` (the
BeforeValidator of an "Output" field): accepts the numeric value with no
conversion. -/
def validate_passthrough (value : ℚ) : Except HookError ℚ :=
  .ok value

/-- `fields.py` `_create_output_type.serialize_to_preferred` (the
PlainSerializer of an "Output" field). -/
def serialize_to_preferred (dimension : String) (st : CtxState) (w : World)
    (c : CacheCtx) (value : ℚ) : Except HookError (ℚ × World) :=
  let system := get_unit_system st
  match convert_from_base w c value dimension system with
  | .ok r => .ok r
  | .error e => .error (.valueError e.message)

end Fields

/-! ### Claims about the unit-system scope (context.py) -/

/-- C3: scope set/restore obeys stack discipline within one call chain:
resetting with the handle returned by a set restores exactly the value
current immediately before that set, across nested sets; concretely, a
chain that sets "imperial", then nests a set of "si" with its restore,
reads "imperial" both before and after the nested pair. -/
theorem claim_scope_stack_discipline :
    (∀ (st : Context.CtxState) (s : String),
      Context.get_unit_system
          (Context.reset_unit_system (Context.set_unit_system st s).token) =
        Context.get_unit_system st)
    ∧ Context.get_unit_system (Context.set_unit_system none "imperial").state = "imperial"
    ∧ Context.get_unit_system
        ((Context.set_unit_system
            (Context.set_unit_system none "imperial").state "si").state) = "si"
    ∧ Context.get_unit_system
        (Context.reset_unit_system
          ((Context.set_unit_system
              (Context.set_unit_system none "imperial").state "si").token)) = "imperial" :=
  ⟨fun _ _ => rfl, by decide, by decide, by decide⟩

/-- C7 (claim confirmed): setting an unknown unit-system key never fails:
it emits exactly one warning whose text carries the "Did you mean 'si'?"
hint ("si" is the base system), and the ambient value becomes the
context module's process-wide default system "imperial", which is what
`get_unit_system` then returns. -/
theorem claim_unknown_system_set_fallback :
    ∀ (st : Context.CtxState) (s : String),
      pyLower s ∉ Context.SUPPORTED_SYSTEMS →
      (Context.set_unit_system st s).warnings = [Context.unknownSystemWarning s]
      ∧ (∃ tail, Context.unknownSystemWarning s = "Unknown unit system '" ++ s ++ tail
          ∧ tail = "' — falling back to 'imperial'. Supported systems: ['imperial', 'si']. Did you mean 'si'?")
      ∧ (Context.set_unit_system st s).state = some Context.DEFAULT_SYSTEM
      ∧ Context.get_unit_system (Context.set_unit_system st s).state =
          Context.DEFAULT_SYSTEM := by
  intro st s h
  refine ⟨?_, ?_, ?_, ?_⟩
  · simp [Context.set_unit_system, h]
  · refine ⟨"' — falling back to '" ++ (Context.DEFAULT_SYSTEM ++
      "'. Supported systems: ['imperial', 'si']. Did you mean 'si'?"), ?_, ?_⟩
    · simp only [Context.unknownSystemWarning, String.append_assoc]
    · decide
  · simp [Context.set_unit_system, h]
  · simp [Context.set_unit_system, Context.get_unit_system, h]

/-- Witness for C7 at the concrete unknown key "metric". -/
theorem claim_unknown_system_set_fallback_witness :
    pyLower "metric" ∉ Context.SUPPORTED_SYSTEMS
    ∧ (Context.set_unit_system none "metric").state = some "imperial" :=
  ⟨by decide, (claim_unknown_system_set_fallback none "metric" (by decide)).2.2.1⟩

/-- C2 counterexample: "cgs" is a system key defined by every dimension
entry of the registry (so the claim says `set_unit_system "cgs"` must set
"cgs" with no warning), yet the scope's set operation warns on it and
substitutes "imperial": `SUPPORTED_SYSTEMS` in context.py is hardcoded to
imperial/si and is not derived from the registry shape. -/
theorem claim_valid_systems_counterexample :
    (Dimensions.TARGET_DIMENSIONS_RAW.all (fun p => (p.2.find "cgs").isSome)) = true
    ∧ "cgs" ∈ Dimensions.UNIT_SYSTEMS
    ∧ (Context.set_unit_system none "cgs").warnings ≠ []
    ∧ (Context.set_unit_system none "cgs").state = some "imperial" := by
  refine ⟨by decide, by decide, ?_, by decide⟩
  decide

/-- C2 amended: the scope's valid key set is the hardcoded
`SUPPORTED_SYSTEMS = {"imperial", "si"}` (a strict subset of the
registry-derived system keys, see the counterexample): for a key whose
lower-case form is in that set, `set_unit_system` (in any letter case)
sets the ambient system to the lower-case form, with no warning and no
substitution by the default system. -/
theorem claim_valid_systems_amended :
    ∀ (st : Context.CtxState) (s : String),
      pyLower s ∈ Context.SUPPORTED_SYSTEMS →
      (Context.set_unit_system st s).warnings = []
      ∧ (Context.set_unit_system st s).state = some (pyLower s)
      ∧ Context.get_unit_system (Context.set_unit_system st s).state = pyLower s := by
  intro st s h
  refine ⟨?_, ?_, ?_⟩ <;>
    simp [Context.set_unit_system, Context.get_unit_system, h]

/-- Witness for the amended C2 at the mixed-case supported key "SI". -/
theorem claim_valid_systems_amended_witness :
    pyLower "SI" ∈ Context.SUPPORTED_SYSTEMS
    ∧ (Context.set_unit_system none "SI").state = some (pyLower "SI") :=
  ⟨by decide, (claim_valid_systems_amended none "SI" (by decide)).2.1⟩

/-- C10: every `unit_context` state a call chain can reach through the
scope API yields a `get_unit_system` value that is a lower-case member of
the supported-system set — the initial state reads "imperial", a set
stores either the lower-cased supported key or the default "imperial",
and a reset only restores a previously held state. -/
theorem claim_ambient_system_invariant :
    ∀ (st : Context.CtxState), Context.ReachableCtx st →
      Context.get_unit_system st ∈ Context.SUPPORTED_SYSTEMS
      ∧ pyLower (Context.get_unit_system st) = Context.get_unit_system st := by
  intro st h
  induction h with
  | init => exact ⟨by decide, by decide⟩
  | step_set st' s _ _ =>
    by_cases hc : pyLower s ∈ Context.SUPPORTED_SYSTEMS
    · have hc' := hc
      simp only [Context.SUPPORTED_SYSTEMS, List.mem_cons, List.not_mem_nil,
        or_false] at hc'
      simp only [Context.set_unit_system, Context.get_unit_system, if_pos hc,
        Option.getD_some]
      rcases hc' with h1 | h1 <;> rw [h1] <;> exact ⟨by decide, by decide⟩
    · simp only [Context.set_unit_system, Context.get_unit_system, if_neg hc,
        Option.getD_some]
      exact ⟨by decide, by decide⟩
  | step_reset tok _ ih => exact ih

/-- Witness for C10 at the reachable state produced by setting "SI". -/
theorem claim_ambient_system_invariant_witness :
    Context.get_unit_system (Context.set_unit_system none "SI").state ∈
      Context.SUPPORTED_SYSTEMS :=
  (claim_ambient_system_invariant _
    (Context.ReachableCtx.step_set none "SI" Context.ReachableCtx.init)).1

/-! ### Claims about the dimension registry lookup (core.py / dimensions.py) -/

namespace Dimensions

/-- A key outside the six TypedDict system keys misses every
`UnitMapping`. -/
theorem UnitMapping.find_eq_none {m : UnitMapping} {k : String}
    (h : k ∉ UNIT_SYSTEMS) : m.find k = none := by
  simp only [UNIT_SYSTEMS, List.mem_cons, List.not_mem_nil, or_false, not_or] at h
  obtain ⟨h1, h2, h3, h4, h5, h6⟩ := h
  simp [UnitMapping.find, h1, h2, h3, h4, h5, h6]

/-- Every `UnitMapping` resolves the registry default system. -/
theorem UnitMapping.find_engg_si (m : UnitMapping) :
    m.find "engg_si" = some m.engg_si := by
  simp [UnitMapping.find]

end Dimensions

namespace Core

/-- Two dimension spellings with the same normal form resolve alike, as
long as the normal form is a registry key (the unknown-key error message
embeds the original spelling, so this needs the lookup to succeed). -/
theorem get_preferred_unit_congr {a b : String} (s : String)
    (h : normalizeDim a = normalizeDim b) {m : Dimensions.UnitMapping}
    (hm : assocFind Dimensions.TARGET_DIMENSIONS_RAW (normalizeDim b) = some m) :
    get_preferred_unit a s = get_preferred_unit b s := by
  unfold get_preferred_unit
  rw [h]
  simp only [hm]

/-- When the (lower-cased) system key misses the dimension's mapping,
`get_preferred_unit` silently resolves the registry default system
instead. -/
theorem get_preferred_unit_fallback {d s : String} {m : Dimensions.UnitMapping}
    (hm : assocFind Dimensions.TARGET_DIMENSIONS_RAW (normalizeDim d) = some m)
    (hs : m.find (pyLower s) = none) :
    get_preferred_unit d s = .ok m.engg_si
    ∧ get_preferred_unit d Dimensions.DEFAULT_SYSTEM = .ok m.engg_si := by
  have hlow : pyLower Dimensions.DEFAULT_SYSTEM = "engg_si" := by decide
  constructor
  · unfold get_preferred_unit
    simp only [hm, hs, Option.isSome_none, Bool.false_eq_true, if_false,
      Dimensions.DEFAULT_SYSTEM, Dimensions.UnitMapping.find_engg_si]
  · unfold get_preferred_unit
    simp only [hm, hlow, Dimensions.UnitMapping.find_engg_si, Option.isSome_some,
      if_true]

/-- Packaged form of the fallback: for a dimension whose normal form is a
registry key and a system that misses every mapping, the lookup equals the
default-system lookup and succeeds. -/
theorem get_preferred_unit_fallback_total (d s : String)
    (hm : (assocFind Dimensions.TARGET_DIMENSIONS_RAW (normalizeDim d)).isSome = true)
    (hs : ∀ m : Dimensions.UnitMapping, m.find (pyLower s) = none) :
    get_preferred_unit d s = get_preferred_unit d Dimensions.DEFAULT_SYSTEM
    ∧ ∃ u, get_preferred_unit d s = .ok u := by
  rcases hx : assocFind Dimensions.TARGET_DIMENSIONS_RAW (normalizeDim d) with _ | m
  · rw [hx] at hm
    simp at hm
  · obtain ⟨h1, h2⟩ := get_preferred_unit_fallback hx (hs m)
    exact ⟨h1.trans h2.symm, _, h1⟩

end Core

/-- C8: for a dimension in the registry and a system string whose
lower-case form is not a known system key, `get_preferred_unit` silently
returns exactly the unit it returns for the default system
("engg_si"), raising nothing. -/
theorem claim_unknown_system_lookup_fallback :
    ∀ (d : String), d ∈ Dimensions.DIMENSION_KEYS →
    ∀ (s : String), pyLower s ∉ Dimensions.UNIT_SYSTEMS →
      Core.get_preferred_unit d s = Core.get_preferred_unit d Dimensions.DEFAULT_SYSTEM
      ∧ ∃ u, Core.get_preferred_unit d s = .ok u := by
  intro d hd s hs
  have hfind : ∀ m : Dimensions.UnitMapping, m.find (pyLower s) = none :=
    fun _ => Dimensions.UnitMapping.find_eq_none hs
  fin_cases hd <;>
    exact Core.get_preferred_unit_fallback_total _ s (by rfl) hfind

/-- Witness for C8: dimension "pressure" with the bogus system "bogus"
resolves to the engg_si unit "bar". -/
theorem claim_unknown_system_lookup_fallback_witness :
    "pressure" ∈ Dimensions.DIMENSION_KEYS
    ∧ pyLower "bogus" ∉ Dimensions.UNIT_SYSTEMS
    ∧ Core.get_preferred_unit "pressure" "bogus" =
        Core.get_preferred_unit "pressure" Dimensions.DEFAULT_SYSTEM :=
  ⟨by decide, by decide,
    (claim_unknown_system_lookup_fallback "pressure" (by decide) "bogus" (by decide)).1⟩

/-- C5 counterexample: replacing the underscores of "mass_flow_rate" by a
run of two spaces (first separator) gives a key the lookup rejects with
`UnsupportedDimensionError`, while the canonical key resolves: core.py
normalizes with `.replace(" ", "_")`, which turns each space character
into one underscore instead of collapsing whitespace runs. -/
theorem claim_dimension_normalization_counterexample :
    Core.get_preferred_unit "mass  flow rate" "si" =
      .error (.unsupportedDimension (Core.unsupportedMsg "mass  flow rate"))
    ∧ Core.get_preferred_unit "mass_flow_rate" "si" = .ok "kilogram / second"
    ∧ Core.get_preferred_unit "mass  flow rate" "si" ≠
        Core.get_preferred_unit "mass_flow_rate" "si" := by
  have h1 : Core.get_preferred_unit "mass  flow rate" "si" =
      .error (.unsupportedDimension (Core.unsupportedMsg "mass  flow rate")) := rfl
  have h2 : Core.get_preferred_unit "mass_flow_rate" "si" = .ok "kilogram / second" := rfl
  refine ⟨h1, h2, ?_⟩
  rw [h1, h2]
  exact fun h => nomatch h

/-- C5 amended: for every registry dimension key and every system,
`get_preferred_unit` returns the identical result for every spelling
whose normalized form is the key — in particular the canonical key, any
letter-case variant of it (any string that lower-cases to the key), the
variant with each underscore replaced by exactly one space, and the
pretty title-case presentation form — normalization lower-cases the key
and maps each single space character to an underscore (runs of
whitespace are not collapsed, see the counterexample). -/
theorem claim_dimension_normalization_amended :
    ∀ (d : String), d ∈ Dimensions.DIMENSION_KEYS → ∀ (s : String),
      (∀ d', Core.normalizeDim d' = d →
        Core.get_preferred_unit d' s = Core.get_preferred_unit d s)
      ∧ (∀ d', pyLower d' = d →
        Core.get_preferred_unit d' s = Core.get_preferred_unit d s)
      ∧ Core.get_preferred_unit (Dimensions.prettyKey d) s = Core.get_preferred_unit d s
      ∧ Core.get_preferred_unit (pyUpper d) s = Core.get_preferred_unit d s
      ∧ Core.get_preferred_unit (pyReplaceChar '_' ' ' d) s =
          Core.get_preferred_unit d s := by
  intro d hd s
  fin_cases hd <;>
    exact ⟨fun d' hd' =>
             Core.get_preferred_unit_congr s (hd'.trans (by decide)) rfl,
           fun d' hd' =>
             Core.get_preferred_unit_congr s
               (by unfold Core.normalizeDim; rw [hd']; decide) rfl,
           Core.get_preferred_unit_congr s (by decide) rfl,
           Core.get_preferred_unit_congr s (by decide) rfl,
           Core.get_preferred_unit_congr s (by decide) rfl⟩

/-- Witness for the amended C5: the mixed-case variant "Mass_flow_rate"
and the pretty form "Mass Flow Rate" of "mass_flow_rate" both resolve
identically to the canonical key for system "si". -/
theorem claim_dimension_normalization_amended_witness :
    "mass_flow_rate" ∈ Dimensions.DIMENSION_KEYS
    ∧ pyLower "Mass_flow_rate" = "mass_flow_rate"
    ∧ Core.get_preferred_unit "Mass_flow_rate" "si" =
        Core.get_preferred_unit "mass_flow_rate" "si"
    ∧ Dimensions.prettyKey "mass_flow_rate" = "Mass Flow Rate"
    ∧ Core.get_preferred_unit (Dimensions.prettyKey "mass_flow_rate") "si" =
        Core.get_preferred_unit "mass_flow_rate" "si" :=
  ⟨by decide, by decide,
    (claim_dimension_normalization_amended "mass_flow_rate" (by decide) "si").2.1
      "Mass_flow_rate" (by decide),
    by decide,
    (claim_dimension_normalization_amended "mass_flow_rate" (by decide) "si").2.2.1⟩

/-- Keys of a cache whose dimensions all resolve in the registry never
match an unknown dimension, so the cache lookup misses. -/
theorem assocFind_cache_none {cache : Context.Cache} {v : ℚ} {d s dir : String}
    (hwf : ∀ e ∈ cache,
      assocFind Dimensions.TARGET_DIMENSIONS_RAW (Core.normalizeDim e.1.2.1) ≠ none)
    (hd : assocFind Dimensions.TARGET_DIMENSIONS_RAW (Core.normalizeDim d) = none) :
    assocFind cache ((v, d, s, dir) : Context.CacheKey) = none := by
  induction cache with
  | nil => rfl
  | cons e rest ih =>
    obtain ⟨k, r⟩ := e
    by_cases hk : ((v, d, s, dir) : Context.CacheKey) = k
    · exfalso
      apply hwf (k, r) (List.mem_cons_self _ _)
      rw [← hk]
      exact hd
    · simp only [assocFind, if_neg hk]
      exact ih fun e he => hwf e (List.mem_cons_of_mem _ he)

set_option maxRecDepth 4000 in
/-- C6: a dimension string whose normalized form is not a registry key
makes `get_preferred_unit` — and through it `get_base_unit`,
`convert_to_base` and `convert_from_base` — fail with
`UnsupportedDimensionError` whose message carries the offending key and
the list of known dimension keys; no value is returned. The cache
hypothesis says the chain's cache holds only keys with known dimensions
(which is all the conversion functions ever store, since they fail before
caching an unknown dimension). -/
theorem claim_unknown_dimension_error :
    ∀ (d s : String) (v : ℚ) (w : Context.World) (c : Context.CacheCtx),
      assocFind Dimensions.TARGET_DIMENSIONS_RAW (Core.normalizeDim d) = none →
      (∀ e ∈ Context.get_request_cache w c,
        assocFind Dimensions.TARGET_DIMENSIONS_RAW (Core.normalizeDim e.1.2.1) ≠ none) →
      Core.get_preferred_unit d s = .error (.unsupportedDimension (Core.unsupportedMsg d))
      ∧ Core.get_base_unit d = .error (.unsupportedDimension (Core.unsupportedMsg d))
      ∧ Core.convert_to_base w c v d s =
          .error (.unsupportedDimension (Core.unsupportedMsg d))
      ∧ Core.convert_from_base w c v d s =
          .error (.unsupportedDimension (Core.unsupportedMsg d))
      ∧ Core.unsupportedMsg d =
          "Unsupported dimension '" ++ d ++ "'; supported: " ++ Core.supportedDimsMsg
      ∧ Core.supportedDimsMsg =
          "'pressure', 'length', 'temperature', 'mass', 'time', 'current', 'luminosity', 'substance', 'area', 'volume', 'frequency', 'wavenumber', 'velocity', 'speed', 'mass_flow_rate', 'volumetric_flow_rate', 'acceleration', 'force', 'energy', 'power', 'momentum', 'density', 'torque', 'viscosity', 'kinematic_viscosity'" := by
  intro d s v w c hd hwf
  have hp : Core.get_preferred_unit d s =
      .error (.unsupportedDimension (Core.unsupportedMsg d)) := by
    unfold Core.get_preferred_unit
    simp only [hd]
  have hb : Core.get_base_unit d =
      .error (.unsupportedDimension (Core.unsupportedMsg d)) := by
    unfold Core.get_base_unit Core.get_preferred_unit
    simp only [hd]
  refine ⟨hp, hb, ?_, ?_, rfl, by decide⟩
  · unfold Core.convert_to_base
    simp only [assocFind_cache_none hwf hd, hp]
  · unfold Core.convert_from_base
    simp only [assocFind_cache_none hwf hd, hb]

/-- Witness for C6 at the unknown dimension "not_a_dimension" with an
empty request cache. -/
theorem claim_unknown_dimension_error_witness :
    Core.get_preferred_unit "not_a_dimension" "si" =
      .error (.unsupportedDimension (Core.unsupportedMsg "not_a_dimension")) :=
  (claim_unknown_dimension_error "not_a_dimension" "si" 0 [[]] none (by decide)
    (fun e he => absurd he (List.not_mem_nil e))).1

/-- One abstract round trip through the conversion engine: starting from a
freshly cleared request cache, `convert_to_base` computes the affine image
of `v` and caches it under the "to_base" key, and `convert_from_base` on
that result computes the inverse affine image — exactly `v` — because the
direction component keeps the two cache keys distinct and the source and
target units are swapped between the two calls. -/
theorem roundtrip_general {d s u1 u2 : String} {f1 o1 f2 o2 : ℚ}
    (h1 : Core.get_preferred_unit d s = .ok u1)
    (h2 : Core.get_base_unit d = .ok u2)
    (h3 : Pint.interp u1 = some ⟨f1, o1⟩)
    (h4 : Pint.interp u2 = some ⟨f2, o2⟩)
    (hf1 : f1 ≠ 0) (hf2 : f2 ≠ 0) (v : ℚ) :
    ∃ (b r : ℚ) (w1 w2 : Context.World),
      Core.convert_to_base [[]] none v d s = .ok (b, w1)
      ∧ Core.convert_from_base w1 none b d s = .ok (r, w2)
      ∧ |r - v| ≤ (1 / 10000) * |v| := by
  have hto : Core.convert_to_base [[]] none v d s =
      .ok ((f1 * v + o1 - o2) / f2,
        [[(((v, d, s, "to_base") : Context.CacheKey), (f1 * v + o1 - o2) / f2)]]) := by
    unfold Core.convert_to_base
    simp only [Context.get_request_cache, Context.cacheRef, Option.getD_none,
      List.getD, List.get?_cons_zero, List.getElem?_cons_zero, Option.getD_some,
      assocFind, h1, h2, Pint.convertValue, h3, h4, List.set]
  have hfrom : Core.convert_from_base
      [[(((v, d, s, "to_base") : Context.CacheKey), (f1 * v + o1 - o2) / f2)]] none
      ((f1 * v + o1 - o2) / f2) d s =
      .ok ((f2 * ((f1 * v + o1 - o2) / f2) + o2 - o1) / f1,
        [[(((((f1 * v + o1 - o2) / f2), d, s, "from_base") : Context.CacheKey),
            (f2 * ((f1 * v + o1 - o2) / f2) + o2 - o1) / f1),
          (((v, d, s, "to_base") : Context.CacheKey), (f1 * v + o1 - o2) / f2)]]) := by
    have hne : ("from_base" : String) ≠ "to_base" := by decide
    unfold Core.convert_from_base
    simp only [Context.get_request_cache, Context.cacheRef, Option.getD_none,
      List.getD, List.get?_cons_zero, List.getElem?_cons_zero, Option.getD_some,
      assocFind, Prod.mk.injEq, hne, h1, h2, Pint.convertValue, h3, h4, List.set,
      and_false, if_false, ite_false]
  have hr : (f2 * ((f1 * v + o1 - o2) / f2) + o2 - o1) / f1 = v := by
    field_simp
  refine ⟨_, _, _, _, hto, hfrom, ?_⟩
  rw [hr, sub_self, abs_zero]
  positivity

/-- C4: the inverse property of the conversion engine — for every
registry dimension, every supported system, and every value, converting to
base units and back (each call starting from the freshly cleared cache and
updating it) returns the original value within 1e-4 relative tolerance
(the model computes over exact rationals, where the round trip is exact:
`toBase` and `fromBase` compose the same affine unit maps in opposite
directions). -/
theorem claim_conversion_roundtrip :
    ∀ (d : String), d ∈ Dimensions.DIMENSION_KEYS →
    ∀ (s : String), s ∈ Dimensions.UNIT_SYSTEMS →
    ∀ v : ℚ, ∃ (b r : ℚ) (w1 w2 : Context.World),
      Core.convert_to_base [[]] none v d s = .ok (b, w1)
      ∧ Core.convert_from_base w1 none b d s = .ok (r, w2)
      ∧ |r - v| ≤ (1 / 10000) * |v| := by
  intro d hd s hs v
  fin_cases hd <;> fin_cases hs <;>
    (apply roundtrip_general <;>
      first
        | rfl
        | norm_num [Pint.lbf, Pint.inch, Pint.pound, Pint.g0, Pint.foot,
            Pint.footPound, Pint.hour, Pint.cm])

/-- Witness for C4: a 212degF round trip through the imperial temperature
conversion. -/
theorem claim_conversion_roundtrip_witness :
    "temperature" ∈ Dimensions.DIMENSION_KEYS
    ∧ "imperial" ∈ Dimensions.UNIT_SYSTEMS
    ∧ ∃ (b r : ℚ) (w1 w2 : Context.World),
        Core.convert_to_base [[]] none 212 "temperature" "imperial" = .ok (b, w1)
        ∧ Core.convert_from_base w1 none b "temperature" "imperial" = .ok (r, w2)
        ∧ |r - 212| ≤ (1 / 10000) * |(212 : ℚ)| :=
  ⟨by decide, by decide,
    claim_conversion_roundtrip "temperature" (by decide) "imperial" (by decide) 212⟩

/-- `convert_to_base` either leaves the heap unchanged (cache hit or
error) or writes back one dict at the calling chain's cache reference. -/
theorem convert_to_base_world {w : Context.World} {c : Context.CacheCtx} {v : ℚ}
    {d s : String} {res : ℚ} {w2 : Context.World}
    (h : Core.convert_to_base w c v d s = .ok (res, w2)) :
    w2 = w ∨ ∃ cache, w2 = w.set (Context.cacheRef c) cache := by
  unfold Core.convert_to_base at h
  rcases hx : assocFind (Context.get_request_cache w c)
      ((v, d, s, "to_base") : Context.CacheKey) with _ | cached <;>
    simp only [hx] at h
  · rcases hp : Core.get_preferred_unit d s with e | u1
    all_goals simp only [hp] at h
    · exact absurd h (by simp)
    rcases hb : Core.get_base_unit d with e | u2
    all_goals simp only [hb] at h
    · exact absurd h (by simp)
    rcases hc : Pint.convertValue v u1 u2 with _ | r
    all_goals simp only [hc] at h
    · exact absurd h (by simp)
    simp only [Except.ok.injEq, Prod.mk.injEq] at h
    exact Or.inr ⟨_, h.2.symm⟩
  · simp only [Except.ok.injEq, Prod.mk.injEq] at h
    exact Or.inl h.2.symm

/-- C1 counterexample: in a fresh process (heap holding only the shared
default dict, empty), a chain that never set its `_request_cache` performs
one conversion; a second, distinct chain that also never set its
`_request_cache`, performed no conversions and imported nothing then
observes that entry through `get_request_cache` — both chains alias the
ContextVar's single mutable default dict. -/
theorem claim_cache_isolation_counterexample :
    Context.get_request_cache [[]] none = []
    ∧ Core.convert_to_base [[]] none 1 "pressure" "si" =
        .ok (1, [[(((1, "pressure", "si", "to_base") : Context.CacheKey), 1)]])
    ∧ Context.get_request_cache
        [[(((1, "pressure", "si", "to_base") : Context.CacheKey), 1)]] none ≠ [] := by
  have h1 : Core.get_preferred_unit "pressure" "si" = .ok "pascal" := rfl
  have h2 : Core.get_base_unit "pressure" = .ok "pascal" := rfl
  have h3 : Pint.interp "pascal" = some ⟨1, 0⟩ := rfl
  refine ⟨rfl, ?_, ?_⟩
  · unfold Core.convert_to_base
    simp only [Context.get_request_cache, Context.cacheRef, Option.getD_none,
      List.getD, List.get?_cons_zero, Option.getD_some, assocFind, h1, h2,
      Pint.convertValue, h3, List.set]
    norm_num
  · simp [Context.get_request_cache, Context.cacheRef]

/-- C1 amended: isolation holds between chains that install their own
cache, as the request boundary is documented to do: after a chain clears
its cache (`clear_request_cache` allocates a fresh dict at a fresh
reference), it observes an empty cache, and it still does after any other
chain whose cache reference lies in the pre-clear heap (in particular the
shared default dict) performs a conversion. Without the clear, both
chains alias the default dict (see the counterexample). -/
theorem claim_cache_isolation_amended :
    ∀ (w : Context.World) (cB cA : Context.CacheCtx) (v res : ℚ) (d s : String)
      (w2 : Context.World),
      Context.cacheRef cA < w.length →
      Context.get_request_cache (Context.clear_request_cache w cB).1
          (Context.clear_request_cache w cB).2.1 = []
      ∧ (Core.convert_to_base (Context.clear_request_cache w cB).1 cA v d s =
            .ok (res, w2) →
          Context.get_request_cache w2 (Context.clear_request_cache w cB).2.1 = []) := by
  intro w cB cA v res d s w2 hA
  simp only [Context.clear_request_cache]
  have hfresh : Context.get_request_cache (w ++ [[]]) (some w.length) = [] := by
    simp only [Context.get_request_cache, Context.cacheRef, Option.getD_some,
      List.getD, List.get?_eq_getElem?,
      List.getElem?_append_right (le_refl w.length)]
    simp
  refine ⟨hfresh, ?_⟩
  intro hconv
  rcases convert_to_base_world hconv with rfl | ⟨cache, rfl⟩
  · exact hfresh
  · have hA' : Option.getD cA 0 ≠ w.length := Nat.ne_of_lt hA
    simp only [Context.get_request_cache, Context.cacheRef, Option.getD_some,
      List.getD, List.get?_eq_getElem?]
    rw [List.getElem?_set_ne hA',
      List.getElem?_append_right (le_refl w.length)]
    simp

/-- Witness for the amended C1: chain B clears over the fresh heap, chain
A (still on the default dict, reference 0) converts 1 pascal, and B still
observes an empty cache. -/
theorem claim_cache_isolation_amended_witness :
    Context.cacheRef (none : Context.CacheCtx) < ([[]] : Context.World).length
    ∧ Context.get_request_cache
        [[(((1, "pressure", "si", "to_base") : Context.CacheKey), 1)], []]
        (some 1) = [] := by
  have h1 : Core.get_preferred_unit "pressure" "si" = .ok "pascal" := rfl
  have h2 : Core.get_base_unit "pressure" = .ok "pascal" := rfl
  have h3 : Pint.interp "pascal" = some ⟨1, 0⟩ := rfl
  have hcv : Core.convert_to_base [[], []] none 1 "pressure" "si" =
      .ok (1, [[(((1, "pressure", "si", "to_base") : Context.CacheKey), 1)], []]) := by
    unfold Core.convert_to_base
    simp only [Context.get_request_cache, Context.cacheRef, Option.getD_none,
      List.getD, List.get?_cons_zero, Option.getD_some, assocFind, h1, h2,
      Pint.convertValue, h3, List.set]
    norm_num
  exact ⟨by decide,
    (claim_cache_isolation_amended [[]] none none 1 1 "pressure" "si"
      [[(((1, "pressure", "si", "to_base") : Context.CacheKey), 1)], []]
      (by decide)).2 hcv⟩

/-- C9: for every dimension and both model roles, the validate and
serialize hooks built by the PintGlass factory never let an engine error
(`UnsupportedDimensionError`/`UnitConversionError`, or any other
`PintGlassError`) escape: whenever the inner engine call fails, the hook
fails with the framework's `ValueError` carrying the original message —
never a raw engine error, and never a silently substituted default
value; the Output role's validator is a pure pass-through that always
accepts. -/
theorem claim_field_error_translation :
    ∀ (dim : String) (st : Context.CtxState) (w : Context.World)
      (c : Context.CacheCtx) (v : ℚ),
      (∀ e, Fields.validate_to_base dim st w c v ≠ .error (.engineError e))
      ∧ (∀ e, Fields.serialize_from_base dim st w c v ≠ .error (.engineError e))
      ∧ (∀ e, Fields.serialize_to_preferred dim st w c v ≠ .error (.engineError e))
      ∧ Fields.validate_passthrough v = .ok v
      ∧ (∀ e, Core.convert_to_base w c v dim (Context.get_unit_system st) = .error e →
          Fields.validate_to_base dim st w c v = .error (.valueError e.message))
      ∧ (∀ e, Core.convert_from_base w c v dim (Context.get_unit_system st) = .error e →
          Fields.serialize_from_base dim st w c v = .error (.valueError e.message))
      ∧ (∀ e, Core.convert_from_base w c v dim (Context.get_unit_system st) = .error e →
          Fields.serialize_to_preferred dim st w c v = .error (.valueError e.message)) := by
  intro dim st w c v
  refine ⟨?_, ?_, ?_, rfl, ?_, ?_, ?_⟩
  · intro e
    unfold Fields.validate_to_base
    rcases h : Core.convert_to_base w c v dim (Context.get_unit_system st) with e' | r <;>
      simp [h]
  · intro e
    unfold Fields.serialize_from_base
    rcases h : Core.convert_from_base w c v dim (Context.get_unit_system st) with e' | r <;>
      simp [h]
  · intro e
    unfold Fields.serialize_to_preferred
    rcases h : Core.convert_from_base w c v dim (Context.get_unit_system st) with e' | r <;>
      simp [h]
  · intro e h
    unfold Fields.validate_to_base
    simp only [h]
  · intro e h
    unfold Fields.serialize_from_base
    simp only [h]
  · intro e h
    unfold Fields.serialize_to_preferred
    simp only [h]

/-- Witness for C9: the Input validator on the unknown dimension
"not_a_dimension" rejects with a `ValueError` carrying the engine's
message. -/
theorem claim_field_error_translation_witness :
    Fields.validate_to_base "not_a_dimension" none [[]] none 1 =
      .error (.valueError (Core.unsupportedMsg "not_a_dimension")) :=
  (claim_field_error_translation "not_a_dimension" none [[]] none 1).2.2.2.2.1
    (.unsupportedDimension (Core.unsupportedMsg "not_a_dimension")) rfl

end PintGlass
